import Mathlib

/-!
Shallow embedding of the PM2534 bench-meter driver (pm2534.py).

The driver is a flat set of property accessors over a GPIB text channel.
Each accessor formats an ASCII command string, writes it to the channel,
and (for queries) reads back one response line and parses it.  We model
the channel by an explicit event trace: each operation returns a result
(`Except PyError _`, mirroring Python exceptions) together with the list
of channel operations it performed, in order.  Query accessors take the
response line the channel would deliver as an explicit argument.

Python dynamic values are modelled by `PyVal`; Python floats are modelled
as exact decimal rationals (no claim here depends on binary rounding:
the values are only parsed, formatted and compared, never computed with).
-/

/-- Characters treated as whitespace by Python str.rstrip / str.strip. -/
def pyIsSpace (c : Char) : Bool :=
  c = ' ' || c = '\t' || c = '\n' || c = '\x0b' || c = '\x0c' || c = '\r'

/-- Model of Python str.rstrip(): drop trailing whitespace. -/
def rstrip (s : String) : String :=
  ⟨(s.data.reverse.dropWhile pyIsSpace).reverse⟩

/-- Model of Python str.lstrip(): drop leading whitespace. -/
def lstrip (s : String) : String :=
  ⟨s.data.dropWhile pyIsSpace⟩

/-- Model of Python str.strip(). -/
def pyStrip (s : String) : String :=
  rstrip (lstrip s)

/-- Model of Python s.rsplit(chr(32), 1)[1]: the part after the last space,
when the string contains a space at all; otherwise indexing [1] fails
(the source leaks an IndexError there), modelled by `none`. -/
def rsplitLastToken (s : String) : Option String :=
  if s.data.contains ' ' then
    some ⟨(s.data.reverse.takeWhile (fun c => c ≠ ' ')).reverse⟩
  else
    none

/-- Model of Python str.upper() restricted to the ASCII range used here. -/
def pyUpper (s : String) : String :=
  ⟨s.data.map Char.toUpper⟩

/-- Leading decimal digits of a character list, and the rest. -/
def takeDigits (l : List Char) : List Char × List Char :=
  (l.takeWhile Char.isDigit, l.dropWhile Char.isDigit)

/-- Numeric value of a list of decimal digit characters. -/
def digitsVal (l : List Char) : ℕ :=
  l.foldl (fun a c => a * 10 + (c.toNat - 48)) 0

/-- Decimal digit character for n < 10. -/
def digitChar (n : ℕ) : Char :=
  Char.ofNat (48 + n)

/-- Decimal digits of a natural number, least significant first (fuel-driven). -/
def natDigitsRev (fuel n : ℕ) : List Char :=
  match fuel with
  | 0 => []
  | f + 1 => if n < 10 then [digitChar n] else digitChar (n % 10) :: natDigitsRev f (n / 10)

/-- Decimal rendering of a natural number. -/
def natToString (n : ℕ) : String :=
  ⟨(natDigitsRev 40 n).reverse⟩

/-- Decimal rendering of an integer; models the Python d format code. -/
def intToString (n : ℤ) : String :=
  if n < 0 then "-" ++ natToString n.natAbs else natToString n.natAbs

/-- Exact rational value of a parsed decimal literal:
sign, mantissa digits, number of fraction digits, decimal exponent. -/
def decToRat (neg : Bool) (mant : ℕ) (fracLen : ℕ) (e : ℤ) : ℚ :=
  let n : ℤ := if neg then -(mant : ℤ) else (mant : ℤ)
  let sh : ℤ := e - (fracLen : ℤ)
  if 0 ≤ sh then Rat.divInt (n * 10 ^ sh.toNat) 1
  else Rat.divInt n (10 ^ (-sh).toNat)

/-- Parse the mantissa of a Python float literal: digits, optionally with a
decimal point; at least one digit must be present on some side of the point.
Returns the mantissa digits value, the fraction length and the rest. -/
def parseMant (l : List Char) : Option (ℕ × ℕ × List Char) :=
  let p := takeDigits l
  match p.2 with
  | '.' :: r =>
    let q := takeDigits r
    if p.1.isEmpty && q.1.isEmpty then none
    else some (digitsVal (p.1 ++ q.1), q.1.length, q.2)
  | _ => if p.1.isEmpty then none else some (digitsVal p.1, 0, p.2)

/-- Parse the exponent tail of a Python float literal; the whole rest of the
input must be consumed.  An empty rest means exponent 0. -/
def parseExpPart (l : List Char) : Option ℤ :=
  match l with
  | [] => some 0
  | c :: r =>
    if c = 'e' || c = 'E' then
      let p : Bool × List Char :=
        match r with
        | '-' :: r2 => (true, r2)
        | '+' :: r2 => (false, r2)
        | _ => (false, r)
      let q := takeDigits p.2
      if q.1.isEmpty || !q.2.isEmpty then none
      else some (if p.1 then -(digitsVal q.1 : ℤ) else (digitsVal q.1 : ℤ))
    else none

/-- Model of the Python float(str) constructor on finite decimal input
(inf/nan spellings and PEP 515 underscores are outside the inputs that
occur here and are not modelled). `none` models a ValueError. -/
def pyFloatOfString (s : String) : Option ℚ :=
  let l := (pyStrip s).data
  let p : Bool × List Char :=
    match l with
    | '-' :: r => (true, r)
    | '+' :: r => (false, r)
    | _ => (false, l)
  match parseMant p.2 with
  | none => none
  | some m =>
    match parseExpPart m.2.2 with
    | none => none
    | some e => some (decToRat p.1 m.1 m.2.1 e)

/-- Model of the Python int(str) constructor: optional sign and digits only
(PEP 515 underscores not modelled). `none` models a ValueError. -/
def pyIntOfString (s : String) : Option ℤ :=
  let l := (pyStrip s).data
  let p : Bool × List Char :=
    match l with
    | '-' :: r => (true, r)
    | '+' :: r => (false, r)
    | _ => (false, l)
  let q := takeDigits p.2
  if q.1.isEmpty || !q.2.isEmpty then none
  else some (if p.1 then -(digitsVal q.1 : ℤ) else (digitsVal q.1 : ℤ))

/-- Truncation toward zero, as the Python int(float) conversion does. -/
def ratTrunc (q : ℚ) : ℤ :=
  q.num.tdiv q.den

/-- Largest e with d * 10 ^ e ≤ n, for d ≤ n (fuel-driven). -/
def ilogUp (fuel n d : ℕ) : ℕ :=
  match fuel with
  | 0 => 0
  | f + 1 => if d * 10 ≤ n then ilogUp f n (d * 10) + 1 else 0

/-- Smallest k ≥ 1 with n * 10 ^ k ≥ d, for 0 < n < d (fuel-driven). -/
def ilogDown (fuel n d : ℕ) : ℕ :=
  match fuel with
  | 0 => 1
  | f + 1 => if n * 10 < d then ilogDown f (n * 10) d + 1 else 1

/-- Round nn / d to the nearest integer, ties to even, as float formatting does. -/
def roundHalfEven (nn d : ℕ) : ℕ :=
  let q0 := nn / d
  let r := nn % d
  if 2 * r < d then q0
  else if d < 2 * r then q0 + 1
  else if q0 % 2 = 0 then q0 else q0 + 1

/-- Scientific mantissa and exponent of n / d (both positive): returns m, e
with the value rounded to m / 1000 * 10 ^ e and 1000 ≤ m ≤ 9999. -/
def sciMantExp (n d : ℕ) : ℕ × ℤ :=
  let e : ℤ := if d ≤ n then (ilogUp 400 n d : ℤ) else -(ilogDown 400 n d : ℤ)
  let sh : ℤ := 3 - e
  let m := if 0 ≤ sh then roundHalfEven (n * 10 ^ sh.toNat) d
           else roundHalfEven n (d * 10 ^ (-sh).toNat)
  if m = 10000 then (1000, e + 1) else (m, e)

/-- Two-digit signed exponent field of the Python scientific float format. -/
def expString (e : ℤ) : String :=
  let sign := if e < 0 then "-" else "+"
  let a := e.natAbs
  sign ++ (if a < 10 then "0" ++ natToString a else natToString a)

/-- Three fraction digits, zero padded on the left. -/
def pad3 (n : ℕ) : String :=
  if n < 10 then "00" ++ natToString n
  else if n < 100 then "0" ++ natToString n
  else natToString n

/-- Model of the Python 1.3E format conversion (scientific notation with
three fraction digits), as used by the range setter. -/
def formatSci3 (v : ℚ) : String :=
  if v.num = 0 then "0.000E+00"
  else
    let sgn := if v.num < 0 then "-" else ""
    let p := sciMantExp v.num.natAbs v.den
    sgn ++ natToString (p.1 / 1000) ++ "." ++ pad3 (p.1 % 1000) ++ "E" ++ expString p.2

/-- Python runtime values that can reach the accessors. -/
inductive PyVal where
  | none
  | bool (b : Bool)
  | int (n : ℤ)
  | float (q : ℚ)
  | str (s : String)
  deriving DecidableEq, Repr

/-- Python exceptions raised by the driver code paths modelled here. -/
inductive PyError where
  | valueError
  | typeError
  | indexError
  | attributeError
  deriving DecidableEq, Repr

/-- One channel operation: a command written to, or a line read from, the bus. -/
inductive Event where
  | send (cmd : String)
  | receive (line : String)
  deriving DecidableEq, Repr

/-- Model of the Python int() constructor on a dynamic value. -/
def pyInt : PyVal → Except PyError ℤ
  | .none => .error .typeError
  | .bool b => .ok (if b then 1 else 0)
  | .int n => .ok n
  | .float q => .ok (ratTrunc q)
  | .str s =>
    match pyIntOfString s with
    | some n => .ok n
    | none => .error .valueError

/-- Python truthiness of a dynamic value. -/
def pyTruthy : PyVal → Bool
  | .none => false
  | .bool b => b
  | .int n => n != 0
  | .float q => q.num != 0
  | .str s => s != ""

/-- Result of a query accessor: the value (or exception) and the channel trace. -/
abbrev ReadResult (α : Type) := Except PyError α × List Event

/-- Result of a setter: unit (or exception) and the channel trace. -/
abbrev WriteResult := Except PyError Unit × List Event

/-- PM2534.read_resp: read a line, strip trailing whitespace, take the part
after the last space.  A line with no space makes the subscript [1] fail,
which the source leaks as a Python IndexError. -/
def read_resp (line : String) : Except PyError String :=
  match rsplitLastToken (rstrip line) with
  | some tok => .ok tok
  | none => .error .indexError

/-- PM2534.id getter: whole trimmed response line, no token extraction. -/
def id_get (line : String) : ReadResult String :=
  (.ok (rstrip line), [.send "ID?", .receive line])

/-- PM2534.function getter. -/
def function_get (line : String) : ReadResult String :=
  (read_resp line, [.send "FNC ?", .receive line])

/-- PM2534.function setter: enum check, then send. -/
def function_set (value : PyVal) : WriteResult :=
  match value with
  | .str s =>
    if s ∈ ["VDC", "VAC", "RTW", "RFW", "IDC", "IAC", "TDC"] then
      (.ok (), [.send ("FNC " ++ s)])
    else (.error .valueError, [])
  | _ => (.error .valueError, [])

/-- PM2534.range getter: token AUTO is returned as the string itself,
any other token goes through float(). -/
def range_get (line : String) : ReadResult PyVal :=
  (match read_resp line with
   | .error e => .error e
   | .ok r =>
     if r = "AUTO" then .ok (.str r)
     else
       match pyFloatOfString r with
       | some q => .ok (.float q)
       | none => .error .valueError,
   [.send "RNG ?", .receive line])

/-- PM2534.range setter: a string must spell auto in any case; any other
value is formatted with the Python 1.3E conversion and sent. -/
def range_set (value : PyVal) : WriteResult :=
  match value with
  | .str s =>
    if pyUpper s = "AUTO" then (.ok (), [.send "RNG AUTO"])
    else (.error .valueError, [])
  | .float q => (.ok (), [.send ("RNG " ++ formatSci3 q)])
  | .int n => (.ok (), [.send ("RNG " ++ formatSci3 (Rat.divInt n 1))])
  | .bool b => (.ok (), [.send ("RNG " ++ formatSci3 (Rat.divInt (if b then 1 else 0) 1))])
  | .none => (.error .typeError, [])

/-- PM2534.speed getter. -/
def speed_get (line : String) : ReadResult ℤ :=
  (match read_resp line with
   | .error e => .error e
   | .ok r =>
     match pyIntOfString r with
     | some n => .ok n
     | none => .error .valueError,
   [.send "MSP ?", .receive line])

/-- PM2534.speed setter: int coercion, bounds check 1..4, then send. -/
def speed_set (value : PyVal) : WriteResult :=
  match pyInt value with
  | .error e => (.error e, [])
  | .ok v =>
    if ¬ (1 ≤ v ∧ v ≤ 4) then (.error .valueError, [])
    else (.ok (), [.send ("MSP " ++ intToString v)])

/-- PM2534.resolution getter. -/
def resolution_get (line : String) : ReadResult ℤ :=
  (match read_resp line with
   | .error e => .error e
   | .ok r =>
     match pyIntOfString r with
     | some n => .ok n
     | none => .error .valueError,
   [.send "RSL ?", .receive line])

/-- PM2534.resolution setter: int coercion, bounds check 4..7, then send. -/
def resolution_set (value : PyVal) : WriteResult :=
  match pyInt value with
  | .error e => (.error e, [])
  | .ok v =>
    if ¬ (4 ≤ v ∧ v ≤ 7) then (.error .valueError, [])
    else (.ok (), [.send ("RSL " ++ intToString v)])

/-- PM2534.filter getter: token ON means true, anything else false. -/
def filter_get (line : String) : ReadResult Bool :=
  (match read_resp line with
   | .error e => .error e
   | .ok s => .ok (s == "ON"),
   [.send "FIL ?", .receive line])

/-- PM2534.filter setter. -/
def filter_set (value : PyVal) : WriteResult :=
  (.ok (), [.send ("FIL " ++ (if pyTruthy value then "ON" else "OFF"))])

/-- PM2534.settling_time getter. -/
def settling_time_get (line : String) : ReadResult Bool :=
  (match read_resp line with
   | .error e => .error e
   | .ok s => .ok (s == "ON"),
   [.send "IST ?", .receive line])

/-- PM2534.settling_time setter. -/
def settling_time_set (value : PyVal) : WriteResult :=
  (.ok (), [.send ("IST " ++ (if pyTruthy value then "ON" else "OFF"))])

/-- PM2534.display getter. -/
def display_get (line : String) : ReadResult Bool :=
  (match read_resp line with
   | .error e => .error e
   | .ok s => .ok (s == "ON"),
   [.send "DSP ?", .receive line])

/-- PM2534.display setter. -/
def display_set (value : PyVal) : WriteResult :=
  (.ok (), [.send ("DSP " ++ (if pyTruthy value then "ON" else "OFF"))])

/-- PM2534.system21_responses getter: token E means true, anything else false. -/
def system21_responses_get (line : String) : ReadResult Bool :=
  (match read_resp line with
   | .error e => .error e
   | .ok s => .ok (s == "E"),
   [.send "AID ?", .receive line])

/-- PM2534.system21_responses setter: true sends E, false sends D. -/
def system21_responses_set (value : PyVal) : WriteResult :=
  (.ok (), [.send ("AID " ++ (if pyTruthy value then "E" else "D"))])

/-- PM2534.calibration getter. -/
def calibration_get (line : String) : ReadResult Bool :=
  (match read_resp line with
   | .error e => .error e
   | .ok s => .ok (s == "ON"),
   [.send "CAL ?", .receive line])

/-- PM2534.calibration setter. -/
def calibration_set (value : PyVal) : WriteResult :=
  (.ok (), [.send ("CAL " ++ (if pyTruthy value then "ON" else "OFF"))])

/-- PM2534.null getter. -/
def null_get (line : String) : ReadResult Bool :=
  (match read_resp line with
   | .error e => .error e
   | .ok s => .ok (s == "ON"),
   [.send "NUL ?", .receive line])

/-- PM2534.null setter. -/
def null_set (value : PyVal) : WriteResult :=
  (.ok (), [.send ("NUL " ++ (if pyTruthy value then "ON" else "OFF"))])

/-- PM2534.trigger getter. -/
def trigger_get (line : String) : ReadResult String :=
  (read_resp line, [.send "TRG ?", .receive line])

/-- PM2534.trigger setter: enum check, then send. -/
def trigger_set (value : PyVal) : WriteResult :=
  match value with
  | .str s =>
    if s ∈ ["I", "B", "E", "K"] then (.ok (), [.send ("TRG " ++ s)])
    else (.error .valueError, [])
  | _ => (.error .valueError, [])

/-- PM2534.text getter: returns None and performs no channel operation. -/
def text_get : ReadResult PyVal :=
  (.ok .none, [])

/-- PM2534.text setter: formats the value with the s format code and sends it;
a non-string argument makes that conversion fail before any channel use. -/
def text_set (value : PyVal) : WriteResult :=
  match value with
  | .str s => (.ok (), [.send ("TXT " ++ s)])
  | .none => (.error .typeError, [])
  | _ => (.error .valueError, [])

/-- PM2534.reading getter: no command is written; one response line is read
and parsed with float(). -/
def reading_get (line : String) : ReadResult ℚ :=
  (match read_resp line with
   | .error e => .error e
   | .ok r =>
     match pyFloatOfString r with
     | some q => .ok q
     | none => .error .valueError,
   [.receive line])

/-- The properties of the PM2534 class. -/
inductive PMProperty where
  | id
  | function
  | range
  | speed
  | resolution
  | filter
  | settling_time
  | display
  | system21_responses
  | calibration
  | null
  | trigger
  | text
  | reading
  deriving DecidableEq, Repr

/-- Inject a typed accessor result into the dynamic-value result form. -/
def mapRes {α : Type} (f : α → PyVal) (r : ReadResult α) : ReadResult PyVal :=
  (r.1.map f, r.2)

/-- Uniform view of all property reads.  The argument is the response line
the channel delivers to this operation (unused by text, which reads nothing). -/
def getVal : PMProperty → String → ReadResult PyVal
  | .id, line => mapRes PyVal.str (id_get line)
  | .function, line => mapRes PyVal.str (function_get line)
  | .range, line => range_get line
  | .speed, line => mapRes PyVal.int (speed_get line)
  | .resolution, line => mapRes PyVal.int (resolution_get line)
  | .filter, line => mapRes PyVal.bool (filter_get line)
  | .settling_time, line => mapRes PyVal.bool (settling_time_get line)
  | .display, line => mapRes PyVal.bool (display_get line)
  | .system21_responses, line => mapRes PyVal.bool (system21_responses_get line)
  | .calibration, line => mapRes PyVal.bool (calibration_get line)
  | .null, line => mapRes PyVal.bool (null_get line)
  | .trigger, line => mapRes PyVal.str (trigger_get line)
  | .text, _ => text_get
  | .reading, line => mapRes PyVal.float (reading_get line)

/-- Uniform view of all property writes.  Assigning to a property that has
no setter raises AttributeError in Python, with no channel use. -/
def setVal : PMProperty → PyVal → WriteResult
  | .id, _ => (.error .attributeError, [])
  | .function, v => function_set v
  | .range, v => range_set v
  | .speed, v => speed_set v
  | .resolution, v => resolution_set v
  | .filter, v => filter_set v
  | .settling_time, v => settling_time_set v
  | .display, v => display_set v
  | .system21_responses, v => system21_responses_set v
  | .calibration, v => calibration_set v
  | .null, v => null_set v
  | .trigger, v => trigger_set v
  | .text, v => text_set v
  | .reading, _ => (.error .attributeError, [])

/-- The accessors whose read path parses the response through read_resp. -/
def queryAccessors : List PMProperty :=
  [.function, .range, .speed, .resolution, .filter, .settling_time,
   .display, .system21_responses, .calibration, .null, .trigger, .reading]

/-! ## Supporting lemmas -/

/-- If a response line contains no whitespace at all, read_resp fails with
the IndexError that the source leaks from its subscripting. -/
theorem read_resp_of_no_space (line : String)
    (h : ∀ c ∈ line.data, pyIsSpace c = false) :
    read_resp line = .error .indexError := by
  have hsp : ¬ (' ' ∈ (rstrip line).data) := by
    intro hm
    have h1 : ' ' ∈ line.data.reverse.dropWhile pyIsSpace := by
      have hd : (rstrip line).data = (line.data.reverse.dropWhile pyIsSpace).reverse := rfl
      rw [hd, List.mem_reverse] at hm
      exact hm
    have h2 : ' ' ∈ line.data := by
      have hmm := (List.dropWhile_sublist pyIsSpace).subset h1
      rw [List.mem_reverse] at hmm
      exact hmm
    have hps := h ' ' h2
    simp [pyIsSpace] at hps
  simp [read_resp, rsplitLastToken, hsp]

/-- Every setter either succeeds with exactly one send, or fails having
performed no channel operation at all. -/
theorem setVal_shape (p : PMProperty) (v : PyVal) :
    (∃ c, setVal p v = (.ok (), [Event.send c])) ∨
    (∃ e, setVal p v = (.error e, [])) := by
  cases p <;> cases v <;>
    simp only [setVal, function_set, range_set, speed_set, resolution_set, filter_set,
      settling_time_set, display_set, system21_responses_set, calibration_set, null_set,
      trigger_set, text_set, pyInt] <;>
    first
    | exact Or.inl ⟨_, rfl⟩
    | exact Or.inr ⟨_, rfl⟩
    | (split <;>
        first
        | exact Or.inl ⟨_, rfl⟩
        | exact Or.inr ⟨_, rfl⟩
        | (split <;> first | exact Or.inl ⟨_, rfl⟩ | exact Or.inr ⟨_, rfl⟩))

/-! ## Claim theorems -/

/-- C1: the code behavior at the claimed condition.  For every accessor whose
read path parses the response with read_resp, a response line containing no
whitespace makes the read fail, but with the generic Python IndexError leaked
from the subscript in read_resp, not with a named malformed-response error. -/
theorem C1_no_whitespace_generic_index_failure :
    ∀ p ∈ queryAccessors, ∀ line : String,
      (∀ c ∈ line.data, pyIsSpace c = false) →
      (getVal p line).1 = .error PyError.indexError := by
  intro p hp line h
  have hrr := read_resp_of_no_space line h
  have hcases : p = PMProperty.function ∨ p = PMProperty.range ∨ p = PMProperty.speed ∨
      p = PMProperty.resolution ∨ p = PMProperty.filter ∨ p = PMProperty.settling_time ∨
      p = PMProperty.display ∨ p = PMProperty.system21_responses ∨
      p = PMProperty.calibration ∨ p = PMProperty.null ∨ p = PMProperty.trigger ∨
      p = PMProperty.reading := by
    simpa [queryAccessors] using hp
  rcases hcases with rfl | rfl | rfl | rfl | rfl | rfl | rfl | rfl | rfl | rfl | rfl | rfl <;>
    simp [getVal, mapRes, Except.map, function_get, range_get, speed_get, resolution_get,
      filter_get, settling_time_get, display_get, system21_responses_get, calibration_get,
      null_get, trigger_get, reading_get, hrr]

/-- C1 witness: the function getter fed the whitespace-free line NOVALUE. -/
theorem C1_no_whitespace_generic_index_failure_witness :
    (getVal PMProperty.function "NOVALUE").1 = .error PyError.indexError :=
  C1_no_whitespace_generic_index_failure PMProperty.function (by decide) "NOVALUE" (by decide)

/-- C2 counterexample: reading the text property performs no channel
operation at all, so a property read does not always perform one send
followed by one receive. -/
theorem C2_counterexample_text_read_no_io :
    ¬ ∃ c r, (getVal PMProperty.text "A 1").2 = [Event.send c, Event.receive r] := by
  rintro ⟨c, r, hcr⟩
  simp [getVal, text_get] at hcr

/-- C2 (amended): a property write that succeeds performs exactly one send and
a failing write performs no channel operation; a property read performs exactly
one send followed by exactly one receive, except text (no channel operation)
and reading (exactly one receive, no send). -/
theorem C2_channel_trace_invariant :
    (∀ (p : PMProperty) (v : PyVal),
        ((setVal p v).1 = .ok () → ∃ c, (setVal p v).2 = [Event.send c]) ∧
        (∀ e, (setVal p v).1 = .error e → (setVal p v).2 = [])) ∧
    (∀ (p : PMProperty) (line : String),
        p ≠ PMProperty.text → p ≠ PMProperty.reading →
        ∃ c, (getVal p line).2 = [Event.send c, Event.receive line]) ∧
    (∀ line, (getVal PMProperty.text line).2 = []) ∧
    (∀ line, (getVal PMProperty.reading line).2 = [Event.receive line]) := by
  refine ⟨fun p v => ?_, fun p line h1 h2 => ?_, fun line => rfl, fun line => rfl⟩
  · rcases setVal_shape p v with ⟨c, hc⟩ | ⟨e, he⟩
    · rw [hc]
      exact ⟨fun _ => ⟨c, rfl⟩, fun e h => by simp at h⟩
    · rw [he]
      exact ⟨fun h => by simp at h, fun _ _ => rfl⟩
  · cases p <;> first
      | exact absurd rfl h1
      | exact absurd rfl h2
      | exact ⟨_, rfl⟩

/-- C2 witness: concrete write and read traces. -/
theorem C2_channel_trace_invariant_witness :
    (∃ c, (setVal PMProperty.function (PyVal.str "VDC")).2 = [Event.send c]) ∧
    (setVal PMProperty.speed (PyVal.int 9)).2 = [] ∧
    (∃ c, (getVal PMProperty.range "RNG AUTO").2 =
      [Event.send c, Event.receive "RNG AUTO"]) :=
  ⟨(C2_channel_trace_invariant.1 PMProperty.function (PyVal.str "VDC")).1 rfl,
   (C2_channel_trace_invariant.1 PMProperty.speed (PyVal.int 9)).2 PyError.valueError rfl,
   C2_channel_trace_invariant.2.1 PMProperty.range "RNG AUTO" (by decide) (by decide)⟩

/-- C3: writing range 3.0 sends exactly RNG 3.000E+00, and a range read whose
response line is RNG 3.000E+00 yields the float 3.0 back. -/
theorem C3_range_roundtrip :
    range_set (PyVal.float 3) = (.ok (), [Event.send "RNG 3.000E+00"]) ∧
    range_get "RNG 3.000E+00" =
      (.ok (PyVal.float 3),
       [Event.send "RNG ?", Event.receive "RNG 3.000E+00"]) := by
  have h3 : (3 : ℚ) = Rat.divInt 3 1 := by rw [Rat.divInt_eq_div]; norm_num
  constructor
  · have hf : formatSci3 (3 : ℚ) = "3.000E+00" := by
      rw [h3]
      decide
    simp [range_set, hf]
  · have hr : read_resp "RNG 3.000E+00" = .ok "3.000E+00" := rfl
    have hq : pyFloatOfString "3.000E+00" = some (Rat.divInt 3 1) := by decide
    rw [h3]
    simp [range_get, hr, hq]

/-- C4: the function setter accepts exactly the seven function mnemonics and
the trigger setter exactly the four trigger letters, sending the exact wire
string and reading nothing; any other string raises ValueError with no
channel operation. -/
theorem C4_function_trigger_enum :
    ∀ s : String,
      (s ∈ ["VDC", "VAC", "RTW", "RFW", "IDC", "IAC", "TDC"] →
        function_set (PyVal.str s) = (.ok (), [Event.send ("FNC " ++ s)])) ∧
      (s ∉ ["VDC", "VAC", "RTW", "RFW", "IDC", "IAC", "TDC"] →
        function_set (PyVal.str s) = (.error PyError.valueError, [])) ∧
      (s ∈ ["I", "B", "E", "K"] →
        trigger_set (PyVal.str s) = (.ok (), [Event.send ("TRG " ++ s)])) ∧
      (s ∉ ["I", "B", "E", "K"] →
        trigger_set (PyVal.str s) = (.error PyError.valueError, [])) := by
  intro s
  refine ⟨fun h => ?_, fun h => ?_, fun h => ?_, fun h => ?_⟩ <;>
    simp only [function_set, trigger_set]
  · rw [if_pos h]
  · rw [if_neg h]
  · rw [if_pos h]
  · rw [if_neg h]

/-- C4 witness: concrete members and non-members of both enum sets. -/
theorem C4_function_trigger_enum_witness :
    function_set (PyVal.str "VDC") = (.ok (), [Event.send "FNC VDC"]) ∧
    function_set (PyVal.str "XXX") = (.error PyError.valueError, []) ∧
    trigger_set (PyVal.str "K") = (.ok (), [Event.send "TRG K"]) ∧
    trigger_set (PyVal.str "Q") = (.error PyError.valueError, []) :=
  ⟨(C4_function_trigger_enum "VDC").1 (by decide),
   (C4_function_trigger_enum "XXX").2.1 (by decide),
   (C4_function_trigger_enum "K").2.2.1 (by decide),
   (C4_function_trigger_enum "Q").2.2.2 (by decide)⟩

/-- C5: writing a string that upper-cases to AUTO sends exactly RNG AUTO,
writing any other string raises ValueError with no channel operation, and a
range read whose response is RNG AUTO returns the string AUTO, not a float. -/
theorem C5_range_auto :
    (∀ s : String, pyUpper s = "AUTO" →
        range_set (PyVal.str s) = (.ok (), [Event.send "RNG AUTO"])) ∧
    (∀ s : String, pyUpper s ≠ "AUTO" →
        range_set (PyVal.str s) = (.error PyError.valueError, [])) ∧
    range_get "RNG AUTO" =
      (.ok (PyVal.str "AUTO"), [Event.send "RNG ?", Event.receive "RNG AUTO"]) := by
  refine ⟨fun s h => ?_, fun s h => ?_, rfl⟩
  · simp only [range_set]
    rw [if_pos h]
  · simp only [range_set]
    rw [if_neg h]

/-- C5 witness: lower and mixed case spellings of auto, and a non-auto string. -/
theorem C5_range_auto_witness :
    range_set (PyVal.str "auto") = (.ok (), [Event.send "RNG AUTO"]) ∧
    range_set (PyVal.str "aUtO") = (.ok (), [Event.send "RNG AUTO"]) ∧
    range_set (PyVal.str "fast") = (.error PyError.valueError, []) :=
  ⟨C5_range_auto.1 "auto" (by decide),
   C5_range_auto.1 "aUtO" (by decide),
   C5_range_auto.2.1 "fast" (by decide)⟩

/-- C6: a system21_responses read parses to true exactly when the trailing
token of the response line equals E and to false for any other token; a write
of true sends AID E and a write of false sends AID D. -/
theorem C6_system21_asymmetric :
    (∀ line tok, read_resp line = .ok tok →
        (system21_responses_get line).1 = .ok (tok == "E")) ∧
    system21_responses_set (PyVal.bool true) = (.ok (), [Event.send "AID E"]) ∧
    system21_responses_set (PyVal.bool false) = (.ok (), [Event.send "AID D"]) := by
  refine ⟨fun line tok h => ?_, rfl, rfl⟩
  simp [system21_responses_get, h]

/-- C6 witness: the lines AID E and AID D. -/
theorem C6_system21_asymmetric_witness :
    (system21_responses_get "AID E").1 = .ok true ∧
    (system21_responses_get "AID D").1 = .ok false :=
  ⟨C6_system21_asymmetric.1 "AID E" "E" rfl,
   C6_system21_asymmetric.1 "AID D" "D" rfl⟩

/-- C7: a reading read writes no command and performs exactly one receive,
and the response line X 1.2345 parses to the float 1.2345. -/
theorem C7_reading_queryless :
    (∀ line, (reading_get line).2 = [Event.receive line]) ∧
    reading_get "X 1.2345" = (.ok (1.2345 : ℚ), [Event.receive "X 1.2345"]) := by
  constructor
  · intro line
    rfl
  · have hr : read_resp "X 1.2345" = .ok "1.2345" := rfl
    have hq : pyFloatOfString "1.2345" = some (Rat.divInt 12345 10000) := by decide
    have he : Rat.divInt 12345 10000 = (1.2345 : ℚ) := by rw [Rat.divInt_eq_div]; norm_num
    simp [reading_get, hr, hq, he]

/-- C8: for each of the four valid speeds the exact command MSP v is sent;
any other integer raises ValueError with no channel operation. -/
theorem C8_speed_domain :
    speed_set (PyVal.int 1) = (.ok (), [Event.send "MSP 1"]) ∧
    speed_set (PyVal.int 2) = (.ok (), [Event.send "MSP 2"]) ∧
    speed_set (PyVal.int 3) = (.ok (), [Event.send "MSP 3"]) ∧
    speed_set (PyVal.int 4) = (.ok (), [Event.send "MSP 4"]) ∧
    ∀ v : ℤ, ¬ (1 ≤ v ∧ v ≤ 4) →
      speed_set (PyVal.int v) = (.error PyError.valueError, []) := by
  refine ⟨rfl, rfl, rfl, rfl, fun v h => ?_⟩
  simp only [speed_set, pyInt]
  rw [if_pos h]

/-- C8 witness: the out-of-range speed 0. -/
theorem C8_speed_domain_witness :
    speed_set (PyVal.int 0) = (.error PyError.valueError, []) :=
  C8_speed_domain.2.2.2.2 0 (by decide)

/-- C9: resolution boundary behavior at 4, 7 (accepted) and 3, 8 (rejected
with ValueError and no channel operation). -/
theorem C9_resolution_boundary :
    resolution_set (PyVal.int 4) = (.ok (), [Event.send "RSL 4"]) ∧
    resolution_set (PyVal.int 7) = (.ok (), [Event.send "RSL 7"]) ∧
    resolution_set (PyVal.int 3) = (.error PyError.valueError, []) ∧
    resolution_set (PyVal.int 8) = (.error PyError.valueError, []) :=
  ⟨rfl, rfl, rfl, rfl⟩

/-- C10: the speed and resolution setters truncate a float argument toward
zero before the bounds check, so speed 4.9 sends MSP 4 and resolution 7.5
sends RSL 7; arguments that int() cannot convert raise before any channel
operation. -/
theorem C10_int_truncation_before_bounds :
    (∀ q : ℚ, pyInt (PyVal.float q) = .ok (ratTrunc q)) ∧
    speed_set (PyVal.float (4.9 : ℚ)) = (.ok (), [Event.send "MSP 4"]) ∧
    resolution_set (PyVal.float (7.5 : ℚ)) = (.ok (), [Event.send "RSL 7"]) ∧
    speed_set (PyVal.str "abc") = (.error PyError.valueError, []) ∧
    resolution_set PyVal.none = (.error PyError.typeError, []) := by
  have h49 : (4.9 : ℚ) = Rat.divInt 49 10 := by rw [Rat.divInt_eq_div]; norm_num
  have h75 : (7.5 : ℚ) = Rat.divInt 75 10 := by rw [Rat.divInt_eq_div]; norm_num
  refine ⟨fun q => rfl, ?_, ?_, rfl, rfl⟩
  · rw [h49]
    rfl
  · rw [h75]
    rfl
